import Mathlib

/-!
Verification of the Loopback-first authentication/authorization layer.

The definitions below are a shallow embedding of the TypeScript sources
`src/authentication/jwt.ts`, `src/controllers/user.controller.ts` (both the
`UserController` and `ProductController` parts) and the `Product` model.
External collaborators (bcryptjs, jsonwebtoken, passport-jwt extractors, the
repository persistence layer) are embedded by their documented contracts:
bcrypt comparison and hashing are function parameters, the repositories are
explicit lists of records, and wall-clock time is an explicit `Nat` argument.
-/

/-- HTTP errors thrown by the controllers and the auth layer
(`HttpErrors.BadRequest`, `HttpErrors.Unauthorized`, entity-not-found). -/
inductive HttpError where
  | badRequest (msg : String)
  | unauthorized (msg : String)
  | notFound
  deriving DecidableEq

/-- `enum SecuredType` from `src/authentication/jwt.ts`. -/
inductive SecuredType where
  | IS_AUTHENTICATED
  | PERMIT_ALL
  | HAS_ANY_ROLE
  | HAS_ROLES
  | DENY_ALL
  deriving DecidableEq

/-- `interface MyAuthenticationMetadata`: the per-endpoint security metadata
attached by the `secured` decorator (`options` is never read and omitted). -/
structure MyAuthenticationMetadata where
  type : SecuredType
  roles : List String
  strategy : String
  deriving DecidableEq

/-- The `secured` decorator: builds the metadata record from its arguments. -/
def secured (type : SecuredType := SecuredType.IS_AUTHENTICATED)
    (roles : List String := []) (strategy : String := "jwt") :
    MyAuthenticationMetadata :=
  { type := type, roles := roles, strategy := strategy }

/-- `JWT_SECRET` from `src/authentication/jwt.ts`. -/
def JWT_SECRET : String := "testjwt"

/-- A stored user record, as read by the auth layer and the user controller
(`user.id`, `user.username`, `user.email`, `user.password` (the hash),
`user.phone`, `user.photoUrl`). -/
structure StoredUser where
  id : Nat
  username : String
  email : String
  password : String
  phone : String
  photoUrl : String
  deriving DecidableEq

/-- The `roles` value placed on a user profile. In JavaScript it is an object
that may or may not carry a `permissions` array; `permissions = none` embeds
the plain empty object `\x7b\x7d`. -/
structure Roles where
  permissions : Option (List String)
  deriving DecidableEq

/-- The `userInfo` profile built by `verifyToken` and consumed by
`verifyRoles` / the controllers (`securityId` is set to `user.id`). -/
structure UserProfile where
  securityId : Nat
  username : String
  email : String
  roles : Roles
  phone : String
  photoUrl : String
  deriving DecidableEq

/-- The payload of a signed token: `login` signs `\x7bemail: credentials.email\x7d`. -/
structure TokenClaim where
  email : String
  deriving DecidableEq

/-- `userRepository.findOne(\x7bwhere: \x7bemail\x7d\x7d)`: first stored user with the
given email. -/
def findOne (db : List StoredUser) (email : String) : Option StoredUser :=
  db.find? (fun u => u.email = email)

/-- The `userInfo` object literal built in `verifyToken` (roles is the empty
object because the role lookup is commented out in the source). -/
def mkUserInfo (user : StoredUser) : UserProfile :=
  { securityId := user.id
    username := user.username
    email := user.email
    roles := { permissions := none }
    phone := user.phone
    photoUrl := user.photoUrl }

/-- Outcome of `verifyToken`'s `done` callback: `done(null, false)` or
`done(null, userInfo)`. -/
inductive VerifyOutcome where
  | fail
  | success (u : UserProfile)
  deriving DecidableEq

/-- `MyAuthAuthenticationStrategyProvider.verifyToken`: looks the payload's
email up in the user repository; on no match reports failure, on a match
builds `userInfo` (with empty roles) and succeeds.  The provider state
includes the endpoint metadata (`this.metadata`), passed here explicitly;
the method never reads it (the `verifyRoles` call is commented out). -/
def verifyToken (metadata : MyAuthenticationMetadata) (db : List StoredUser)
    (payload : TokenClaim) : VerifyOutcome :=
  match findOne db payload.email with
  | none => VerifyOutcome.fail
  | some user =>
      let _ := metadata
      VerifyOutcome.success (mkUserInfo user)

/-- `MyAuthAuthenticationStrategyProvider.verifyRoles`: returns (Allow) or
throws `HttpErrors.Unauthorized('Invalid authorization')` (Deny), following
the source branch for branch. -/
def verifyRoles (m : MyAuthenticationMetadata) (userData : UserProfile) :
    Except HttpError Unit :=
  if m.type = SecuredType.IS_AUTHENTICATED ∨ m.type = SecuredType.PERMIT_ALL then
    Except.ok ()
  else if m.type = SecuredType.HAS_ANY_ROLE then
    match userData.roles.permissions with
    | none => Except.error (HttpError.unauthorized "Invalid authorization")
    | some perms =>
        if m.roles = [] then
          Except.error (HttpError.unauthorized "Invalid authorization")
        else if m.roles.any (fun role => decide (role ∈ perms)) then
          Except.ok ()
        else
          Except.error (HttpError.unauthorized "Invalid authorization")
  else if m.type = SecuredType.HAS_ROLES ∧ m.roles ≠ [] then
    match userData.roles.permissions with
    | none => Except.error (HttpError.unauthorized "Invalid authorization")
    | some roleIds =>
        if m.roles.all (fun role => decide (role ∈ roleIds)) then
          Except.ok ()
        else
          Except.error (HttpError.unauthorized "Invalid authorization")
  else
    Except.error (HttpError.unauthorized "Invalid authorization")

/-- An incoming HTTP request as seen by the token extractors: an optional
`Authorization` header and an optional `access_token` query parameter. -/
structure Request where
  authHeader : Option String
  queryAccessToken : Option String

/-- Result of `MyAuthActionProvider.action`, instrumented with whether the
authentication strategy was ever invoked. -/
structure ActionResult where
  user : Option UserProfile
  strategyInvoked : Bool
  deriving DecidableEq

/-- Running the strategy when the action does not return early. -/
def runStrategyAuth (strategy : Option (Request → Option UserProfile))
    (r : Request) : ActionResult :=
  match strategy with
  | none => { user := none, strategyInvoked := false }
  | some s => { user := s r, strategyInvoked := true }

/-- `MyAuthActionProvider.action`: returns immediately when the metadata type
is `PERMIT_ALL`; otherwise resolves and invokes the strategy. -/
def action (metadata : Option MyAuthenticationMetadata)
    (strategy : Option (Request → Option UserProfile)) (r : Request) :
    ActionResult :=
  match metadata with
  | some m =>
      if m.type = SecuredType.PERMIT_ALL then
        { user := none, strategyInvoked := false }
      else runStrategyAuth strategy r
  | none => runStrategyAuth strategy r

/-- A present identity whose roles object carries `permissions: ["A"]`. -/
def identA : UserProfile :=
  { securityId := 1, username := "a", email := "a@b.com"
    roles := { permissions := some ["A"] }, phone := "", photoUrl := "" }

/-- A present identity whose roles object carries `permissions: ["A","B","C"]`. -/
def identABC : UserProfile :=
  { securityId := 2, username := "abc", email := "abc@b.com"
    roles := { permissions := some ["A", "B", "C"] }, phone := "", photoUrl := "" }

/-- C1: `verifyToken` is uniform in the endpoint's authentication metadata:
for any two metadata values (any `SecuredType`, any role list) the outcome is
identical; it fails exactly when the payload email matches no stored user,
and any successful identity carries the empty roles object (`verifyRoles` is
never invoked on the path). -/
theorem C1_verifyToken_metadata_uniform :
    ∀ (m₁ m₂ : MyAuthenticationMetadata) (db : List StoredUser) (p : TokenClaim),
      verifyToken m₁ db p = verifyToken m₂ db p
      ∧ (verifyToken m₁ db p = VerifyOutcome.fail ↔ findOne db p.email = none)
      ∧ (∀ u, verifyToken m₁ db p = VerifyOutcome.success u →
          u.roles = { permissions := none }) := by
  intro m₁ m₂ db p
  refine ⟨?_, ?_, ?_⟩
  · unfold verifyToken
    cases findOne db p.email <;> rfl
  · unfold verifyToken
    cases h : findOne db p.email <;> simp
  · intro u hu
    unfold verifyToken at hu
    cases h : findOne db p.email <;> rw [h] at hu
    · cases hu
    · cases hu
      rfl

/-- C1 witness: concrete instantiation of the metadata-uniformity theorem. -/
theorem C1_witness :
    verifyToken (secured SecuredType.HAS_ROLES ["admin"])
        [⟨7, "u", "u@x.com", "h", "", ""⟩] ⟨"u@x.com"⟩
      = verifyToken (secured SecuredType.DENY_ALL [])
        [⟨7, "u", "u@x.com", "h", "", ""⟩] ⟨"u@x.com"⟩ :=
  (C1_verifyToken_metadata_uniform (secured SecuredType.HAS_ROLES ["admin"])
    (secured SecuredType.DENY_ALL []) [⟨7, "u", "u@x.com", "h", "", ""⟩]
    ⟨"u@x.com"⟩).1

/-- C2 counterexample: with an empty required role set, the identity is
present and `required ⊆ identity.roles` holds vacuously, yet
`verifyRoles` for `HAS_ROLES` denies (the `type === HAS_ROLES && roles.length`
guard fails and control falls through to the unconditional throw), so the
claimed "empty required set allows any present identity" is false. -/
theorem C2_counterexample :
    (∀ r, r ∈ ([] : List String) → r ∈ ["A"])
    ∧ verifyRoles (secured SecuredType.HAS_ROLES []) identA
        = Except.error (HttpError.unauthorized "Invalid authorization") := by
  constructor
  · intro r hr
    cases hr
  · rfl

/-- C2 (amended): evaluating `HasAllRoles(required)` allows iff the required
set is nonempty, the identity's roles object carries a `permissions` list,
and every required role is in that list; an empty required set is denied.
The claim's concrete examples hold: roles `["A"]` against required
`["A","B"]` is denied, roles `["A","B","C"]` is allowed. -/
theorem C2_hasAllRoles_characterization :
    (∀ (req : List String) (userData : UserProfile) (s : String),
        verifyRoles ⟨SecuredType.HAS_ROLES, req, s⟩ userData = Except.ok ()
          ↔ req ≠ [] ∧ ∃ perms, userData.roles.permissions = some perms
              ∧ ∀ r ∈ req, r ∈ perms)
    ∧ verifyRoles (secured SecuredType.HAS_ROLES ["A", "B"]) identA
        = Except.error (HttpError.unauthorized "Invalid authorization")
    ∧ verifyRoles (secured SecuredType.HAS_ROLES ["A", "B"]) identABC
        = Except.ok () := by
  refine ⟨?_, by rfl, by rfl⟩
  intro req userData s
  cases hperm : userData.roles.permissions with
  | none => simp [verifyRoles, hperm]
  | some perms =>
      by_cases hreq : req = []
      · subst hreq
        simp [verifyRoles]
      · simp [verifyRoles, hperm, hreq, List.all_eq_true]

/-- C2 witness: concrete instantiation of the amended characterization. -/
theorem C2_witness :
    verifyRoles ⟨SecuredType.HAS_ROLES, ["A"], "jwt"⟩ identA = Except.ok () :=
  (C2_hasAllRoles_characterization.1 ["A"] identA "jwt").mpr
    ⟨by simp, ["A"], rfl, by simp⟩

/-- C3: a `PermitAll` requirement always allows: `verifyRoles` returns for
any identity, and when the endpoint metadata type is `PERMIT_ALL` the
authentication action returns before resolving or invoking the strategy, so
no token verification or identity resolution happens. -/
theorem C3_permitAll :
    (∀ (m : MyAuthenticationMetadata) (userData : UserProfile),
        m.type = SecuredType.PERMIT_ALL →
          verifyRoles m userData = Except.ok ())
    ∧ (∀ (m : MyAuthenticationMetadata)
        (strategy : Option (Request → Option UserProfile)) (r : Request),
        m.type = SecuredType.PERMIT_ALL →
          action (some m) strategy r = { user := none, strategyInvoked := false }) := by
  constructor
  · intro m userData hm
    unfold verifyRoles
    rw [if_pos (Or.inr hm)]
  · intro m strategy r hm
    simp [action, hm]

/-- C3 witness: concrete `PERMIT_ALL` endpoint, with a strategy available
that would authenticate, yet the action skips it. -/
theorem C3_witness :
    verifyRoles (secured SecuredType.PERMIT_ALL) identA = Except.ok ()
    ∧ action (some (secured SecuredType.PERMIT_ALL))
        (some (fun _ => some identA)) ⟨none, none⟩
        = { user := none, strategyInvoked := false } :=
  ⟨C3_permitAll.1 (secured SecuredType.PERMIT_ALL) identA rfl,
   C3_permitAll.2 (secured SecuredType.PERMIT_ALL)
     (some (fun _ => some identA)) ⟨none, none⟩ rfl⟩

/-- The signed content of a token: payload plus issued-at / expiry claims. -/
def encodePayload (c : TokenClaim) (iat expiry : Nat) : String :=
  c.email ++ "." ++ toString iat ++ "." ++ toString expiry

/-- The jsonwebtoken collaborator's symmetric signature, embedded as a
deterministic keyed digest of the encoded payload. -/
def hmacSign (secret payload : String) : Nat :=
  String.foldl (fun h ch => h * 131 + ch.toNat) 7 (secret ++ "." ++ payload)

/-- A signed token: claim, issued-at, expiry, and signature. -/
structure Token where
  claim : TokenClaim
  iat : Nat
  exp : Nat
  sig : Nat
  deriving DecidableEq

/-- Outcome of verifying a token: the decoded claim, or a distinct expired /
invalid-signature failure. -/
inductive ParseResult where
  | valid (c : TokenClaim)
  | expired
  | invalid
  deriving DecidableEq

/-- `jsonwebtoken.sign(payload, secret, \x7bexpiresIn: ttl\x7d)` at time `now`. -/
def issue (secret : String) (c : TokenClaim) (ttl : Nat) (now : Nat) : Token :=
  { claim := c, iat := now, exp := now + ttl
    sig := hmacSign secret (encodePayload c now (now + ttl)) }

/-- `jsonwebtoken.verify`: checks the signature, then reports expiry when the
clock has reached `exp`, else yields the claim. -/
def parse (secret : String) (t : Token) (now : Nat) : ParseResult :=
  if t.sig ≠ hmacSign secret (encodePayload t.claim t.iat t.exp) then
    ParseResult.invalid
  else if t.exp ≤ now then
    ParseResult.expired
  else
    ParseResult.valid t.claim

/-- Login request body; `none` embeds an absent JSON field. -/
structure Credentials where
  email : Option String
  password : Option String
  deriving DecidableEq

/-- JavaScript truthiness test used by `login` (`!credentials.email`):
an absent or empty string is falsy. -/
def isFalsy : Option String → Bool
  | none => true
  | some s => s == ""

/-- The literal secret `login` signs with (`signAsync(tokenObject, 'testjwt', ...)`). -/
def loginSignSecret : String := "testjwt"

/-- The literal ttl `login` signs with (`\x7bexpiresIn: 60 * 60\x7d`). -/
def loginExpiresIn : Nat := 60 * 60

/-- `UserController.login`: 400 when email or password is falsy, 401 when no
user matches or the bcrypt comparison fails, else a token signed over
`\x7bemail\x7d` with a one-hour expiry.  The bcrypt collaborator is a parameter. -/
def login (bcryptCompare : String → String → Bool) (db : List StoredUser)
    (now : Nat) (c : Credentials) : Except HttpError Token :=
  if isFalsy c.email ∨ isFalsy c.password then
    Except.error (HttpError.badRequest "Missing Email or Password")
  else
    match findOne db (c.email.getD "") with
    | none => Except.error (HttpError.unauthorized "Invalid credentials")
    | some user =>
        if bcryptCompare (c.password.getD "") user.password then
          Except.ok (issue loginSignSecret { email := c.email.getD "" }
            loginExpiresIn now)
        else
          Except.error (HttpError.unauthorized "Invalid credentials")

/-- C4 counterexample: a request whose `email` field is present but empty
(`""`) matches no stored user, so the claim as stated prescribes 401, but the
code's truthiness check fires first and returns 400. -/
theorem C4_counterexample :
    (Credentials.mk (some "") (some "password1")).email ≠ none
    ∧ (Credentials.mk (some "") (some "password1")).password ≠ none
    ∧ findOne [] (((some "") : Option String).getD "") = none
    ∧ login (fun p h => p == h) [] 0 (Credentials.mk (some "") (some "password1"))
        ≠ Except.error (HttpError.unauthorized "Invalid credentials")
    ∧ login (fun p h => p == h) [] 0 (Credentials.mk (some "") (some "password1"))
        = Except.error (HttpError.badRequest "Missing Email or Password") := by
  refine ⟨by simp, by simp, rfl, ?_, rfl⟩
  intro h
  simp [login, isFalsy] at h

/-- C4 (amended): `POST /users/login` fails with 400 when the email or
password field is missing or empty (JS-falsy), fails with 401 when no stored
user matches the presented email or the bcrypt comparison of the presented
password against the stored hash fails, and otherwise succeeds with a token
signed over the presented email. -/
theorem C4_login_cases :
    ∀ (bcryptCompare : String → String → Bool) (db : List StoredUser)
      (now : Nat) (c : Credentials),
      (isFalsy c.email ∨ isFalsy c.password →
          login bcryptCompare db now c
            = Except.error (HttpError.badRequest "Missing Email or Password"))
      ∧ (¬isFalsy c.email → ¬isFalsy c.password →
          findOne db (c.email.getD "") = none →
          login bcryptCompare db now c
            = Except.error (HttpError.unauthorized "Invalid credentials"))
      ∧ (∀ u, ¬isFalsy c.email → ¬isFalsy c.password →
          findOne db (c.email.getD "") = some u →
          bcryptCompare (c.password.getD "") u.password = false →
          login bcryptCompare db now c
            = Except.error (HttpError.unauthorized "Invalid credentials"))
      ∧ (∀ u, ¬isFalsy c.email → ¬isFalsy c.password →
          findOne db (c.email.getD "") = some u →
          bcryptCompare (c.password.getD "") u.password = true →
          login bcryptCompare db now c
            = Except.ok (issue loginSignSecret { email := c.email.getD "" }
                loginExpiresIn now)) := by
  intro cmp db now c
  refine ⟨?_, ?_, ?_, ?_⟩
  · intro h
    unfold login
    rw [if_pos h]
  · intro h1 h2 hfind
    unfold login
    rw [if_neg (not_or.mpr ⟨h1, h2⟩), hfind]
  · intro u h1 h2 hfind hcmp
    unfold login
    rw [if_neg (not_or.mpr ⟨h1, h2⟩), hfind]
    simp [hcmp]
  · intro u h1 h2 hfind hcmp
    unfold login
    rw [if_neg (not_or.mpr ⟨h1, h2⟩), hfind]
    simp [hcmp]

/-- C4 witness: a concrete successful login through the amended theorem. -/
theorem C4_witness :
    login (fun p h => p == h) [⟨1, "u", "a@b.com", "password1", "", ""⟩] 0
        (Credentials.mk (some "a@b.com") (some "password1"))
      = Except.ok (issue loginSignSecret { email := "a@b.com" } loginExpiresIn 0) :=
  (C4_login_cases (fun p h => p == h) [⟨1, "u", "a@b.com", "password1", "", ""⟩]
      0 (Credentials.mk (some "a@b.com") (some "password1"))).2.2.2
    ⟨1, "u", "a@b.com", "password1", "", ""⟩
    (by decide) (by decide) (by decide) (by decide)

/-- C8: parsing a token issued with a claim and ttl under the same secret
yields the original claim strictly before `iat + ttl` and the expired outcome
strictly after; every token issued by a successful login is signed over the
presented email with the literal one-hour ttl and the literal secret
`'testjwt'`, which is the verification strategy's `JWT_SECRET`. -/
theorem C8_token_roundtrip :
    (∀ (secret : String) (c : TokenClaim) (ttl now0 now : Nat),
        (now < now0 + ttl →
          parse secret (issue secret c ttl now0) now = ParseResult.valid c)
        ∧ (now0 + ttl < now →
          parse secret (issue secret c ttl now0) now = ParseResult.expired))
    ∧ loginExpiresIn = 60 * 60
    ∧ loginSignSecret = JWT_SECRET
    ∧ (∀ (cmp : String → String → Bool) (db : List StoredUser) (now : Nat)
        (c : Credentials) (tok : Token),
        login cmp db now c = Except.ok tok →
        tok = issue JWT_SECRET { email := c.email.getD "" } (60 * 60) now) := by
  refine ⟨?_, rfl, rfl, ?_⟩
  · intro secret c ttl now0 now
    constructor
    · intro h
      simp only [parse, issue, ne_eq, not_true_eq_false, if_false, ite_not]
      rw [if_neg (by omega)]
    · intro h
      simp only [parse, issue, ne_eq, not_true_eq_false, if_false, ite_not]
      rw [if_pos (by omega)]
  · intro cmp db now c tok h
    unfold login at h
    by_cases hf : (isFalsy c.email = true ∨ isFalsy c.password = true)
    · rw [if_pos hf] at h
      cases h
    · rw [if_neg hf] at h
      cases hfind : findOne db (c.email.getD "") with
      | none =>
          rw [hfind] at h
          cases h
      | some u =>
          rw [hfind] at h
          by_cases hc : cmp (c.password.getD "") u.password = true
          · simp [hc] at h
            subst h
            rfl
          · simp [hc] at h

/-- C8 witness: the round-trip evaluated on a concrete login token. -/
theorem C8_witness :
    parse "testjwt" (issue "testjwt" { email := "a@b.com" } 3600 100) 3699
        = ParseResult.valid { email := "a@b.com" }
    ∧ parse "testjwt" (issue "testjwt" { email := "a@b.com" } 3600 100) 3701
        = ParseResult.expired :=
  ⟨(C8_token_roundtrip.1 "testjwt" { email := "a@b.com" } 3600 100 3699).1
      (by decide),
   (C8_token_roundtrip.1 "testjwt" { email := "a@b.com" } 3600 100 3701).2
      (by decide)⟩

/-- The metadata the bare `@secured()` decorator attaches to `whoAmI`
(all decorator arguments defaulted). -/
def whoAmIMetadata : MyAuthenticationMetadata := secured

/-- `UserController.whoAmI`: returns `currentUserProfile[securityId]`. -/
def whoAmI (currentUserProfile : UserProfile) : Nat :=
  currentUserProfile.securityId

/-- C6: `whoAmI` is guarded by the decorator's default `IS_AUTHENTICATED`
requirement, and for an authenticated request the returned subject id equals
the `id` of the stored user that the token's email claim resolved to. -/
theorem C6_whoAmI_subject :
    whoAmIMetadata.type = SecuredType.IS_AUTHENTICATED
    ∧ whoAmIMetadata.roles = []
    ∧ (∀ (m : MyAuthenticationMetadata) (db : List StoredUser)
        (claim : TokenClaim) (u : StoredUser) (profile : UserProfile),
        findOne db claim.email = some u →
        verifyToken m db claim = VerifyOutcome.success profile →
        whoAmI profile = u.id) := by
  refine ⟨rfl, rfl, ?_⟩
  intro m db claim u profile hfind hverify
  unfold verifyToken at hverify
  rw [hfind] at hverify
  cases hverify
  rfl

/-- C6 witness: concrete authenticated request resolving to subject id 7. -/
theorem C6_witness :
    whoAmI (mkUserInfo ⟨7, "u", "u@x.com", "h", "", ""⟩) = 7 :=
  C6_whoAmI_subject.2.2 whoAmIMetadata [⟨7, "u", "u@x.com", "h", "", ""⟩]
    ⟨"u@x.com"⟩ ⟨7, "u", "u@x.com", "h", "", ""⟩
    (mkUserInfo ⟨7, "u", "u@x.com", "h", "", ""⟩) (by decide) (by decide)

/-- Signup request body: the `User` model plus a password; `none` embeds an
absent field (`id` is generated by the repository). -/
structure NewUser where
  username : String
  email : String
  password : Option String
  phone : String
  photoUrl : String
  deriving DecidableEq

/-- Modelled from the spec: the `User` model file is not under `src/`; per
spec section 6 the signup body's `password` carries a minimum length of 8,
checked by the framework's body validation before the handler runs. -/
def validateSignupBody (u : NewUser) : Option HttpError :=
  match u.password with
  | some p =>
      if p.length < 8 then some (HttpError.badRequest "password too short")
      else none
  | none => none

/-- `userRepository.find(\x7bwhere: \x7bemail\x7d\x7d)` followed by the `length >= 1`
check in `createUser`. -/
def emailExists (db : List StoredUser) (email : String) : Bool :=
  1 ≤ (db.filter (fun v => v.email == email)).length

/-- A fresh generated id for `userRepository.create`. -/
def nextId (db : List StoredUser) : Nat :=
  (db.map (fun u => u.id)).foldr Nat.max 0 + 1

/-- `UserController.createUser` composed with the body validation: rejects a
registered email or a falsy password with 400, otherwise stores and returns
the user whose password field is the bcrypt hash of the submitted plaintext.
The bcrypt hash and the generated salt are collaborator parameters. -/
def signup (hashFn : String → String → String) (salt : String)
    (db : List StoredUser) (u : NewUser) :
    List StoredUser × Except HttpError StoredUser :=
  match validateSignupBody u with
  | some e => (db, Except.error e)
  | none =>
      if emailExists db u.email then
        (db, Except.error (HttpError.badRequest "Email already exist."))
      else if isFalsy u.password then
        (db, Except.error (HttpError.badRequest "User Must Have Password."))
      else
        let created : StoredUser :=
          { id := nextId db, username := u.username, email := u.email
            password := hashFn salt (u.password.getD "")
            phone := u.phone, photoUrl := u.photoUrl }
        (db ++ [created], Except.ok created)

/-- Any rejection of the spec-modelled body validation is a 400-class error. -/
theorem validateSignupBody_badRequest (u : NewUser) (e : HttpError)
    (h : validateSignupBody u = some e) : ∃ msg, e = HttpError.badRequest msg := by
  unfold validateSignupBody at h
  cases hp : u.password with
  | none => rw [hp] at h; cases h
  | some p =>
      rw [hp] at h
      by_cases hlen : p.length < 8
      · simp only [hlen, if_true, Option.some.injEq] at h
        exact ⟨_, h.symm⟩
      · simp only [hlen, if_false] at h
        cases h

/-- C5: signup fails with 400 when the email is already registered or the
password is missing, rejects passwords shorter than 8 characters, and on
success returns the created user whose stored password is the salted hash of
the submitted plaintext (hence differs from it whenever the hash does). -/
theorem C5_signup_behaviour :
    ∀ (hashFn : String → String → String) (salt : String)
      (db : List StoredUser) (u : NewUser),
      (emailExists db u.email = true →
          ∃ msg, (signup hashFn salt db u).2
            = Except.error (HttpError.badRequest msg))
      ∧ (u.password = none →
          ∃ msg, (signup hashFn salt db u).2
            = Except.error (HttpError.badRequest msg))
      ∧ (∀ p, u.password = some p → p.length < 8 →
          ∃ msg, (signup hashFn salt db u).2
            = Except.error (HttpError.badRequest msg))
      ∧ (∀ p, u.password = some p → p ≠ "" → 8 ≤ p.length →
          emailExists db u.email = false →
          ∃ created, (signup hashFn salt db u).2 = Except.ok created
            ∧ created.password = hashFn salt p
            ∧ created.email = u.email
            ∧ (hashFn salt p ≠ p → created.password ≠ p)) := by
  intro hashFn salt db u
  refine ⟨?_, ?_, ?_, ?_⟩
  · intro hex
    cases hval : validateSignupBody u with
    | some e =>
        obtain ⟨msg, rfl⟩ := validateSignupBody_badRequest u e hval
        exact ⟨msg, by simp [signup, hval]⟩
    | none =>
        exact ⟨"Email already exist.", by simp [signup, hval, hex]⟩
  · intro hp
    have hval : validateSignupBody u = none := by simp [validateSignupBody, hp]
    by_cases hex : emailExists db u.email = true
    · exact ⟨"Email already exist.", by simp [signup, hval, hex]⟩
    · exact ⟨"User Must Have Password.",
        by simp [signup, hval, hex, isFalsy, hp]⟩
  · intro p hp hlen
    have hval : validateSignupBody u
        = some (HttpError.badRequest "password too short") := by
      simp [validateSignupBody, hp, hlen]
    exact ⟨"password too short", by simp [signup, hval]⟩
  · intro p hp hne hlen hex
    have hval : validateSignupBody u = none := by
      simp [validateSignupBody, hp]
      omega
    have hfal : isFalsy (some p) = false := by simp [isFalsy, hne]
    refine ⟨{ id := nextId db, username := u.username, email := u.email
              password := hashFn salt p, phone := u.phone
              photoUrl := u.photoUrl }, ?_, rfl, rfl, ?_⟩
    · simp [signup, hval, hex, hfal, hp]
    · exact fun hd => hd

/-- C5 witness: concrete signup of `a@b.com` with password `12345678` under a
hash collaborator that prepends the salt; the stored hash differs from the
plaintext. -/
theorem C5_witness :
    ∃ created,
      (signup (fun s p => s ++ p) "ab" []
          ⟨"u", "a@b.com", some "12345678", "", ""⟩).2 = Except.ok created
      ∧ created.password = "ab" ++ "12345678"
      ∧ created.password ≠ "12345678" := by
  obtain ⟨created, h1, h2, h3, h4⟩ :=
    (C5_signup_behaviour (fun s p => s ++ p) "ab" []
        ⟨"u", "a@b.com", some "12345678", "", ""⟩).2.2.2 "12345678"
      rfl (by decide) (by decide) (by decide)
  exact ⟨created, h1, h2, h4 (by decide)⟩

/-- A JavaScript value appearing in the `userInfo` object literal. -/
inductive JsValue where
  | str (s : String)
  | num (n : Nat)
  | emptyObj
  deriving DecidableEq

/-- The `userInfo` object literal of `verifyToken` viewed as a JavaScript
object: the ordered field list exactly as written in the source (`roles` is
the empty object literal). -/
def userInfoObject (user : StoredUser) : List (String × JsValue) :=
  [("securityId", JsValue.num user.id),
   ("username", JsValue.str user.username),
   ("email", JsValue.str user.email),
   ("roles", JsValue.emptyObj),
   ("phone", JsValue.str user.phone),
   ("photoUrl", JsValue.str user.photoUrl)]

/-- C7: the identity built from a matched stored user is the projection onto
id, username, email, roles, phone and photoUrl only: its key set is exactly
those six, no `password` key exists, and (whenever the hash does not collide
with another projected field) no value equals the stored password hash. -/
theorem C7_userInfo_omits_password :
    ∀ (user : StoredUser),
      (userInfoObject user).map Prod.fst
        = ["securityId", "username", "email", "roles", "phone", "photoUrl"]
      ∧ (∀ kv ∈ userInfoObject user, kv.1 ≠ "password")
      ∧ (user.password ∉ [user.username, user.email, user.phone, user.photoUrl] →
          ∀ kv ∈ userInfoObject user, kv.2 ≠ JsValue.str user.password) := by
  intro user
  refine ⟨rfl, ?_, ?_⟩
  · intro kv hkv
    simp only [userInfoObject, List.mem_cons, List.not_mem_nil, or_false] at hkv
    rcases hkv with h | h | h | h | h | h <;> subst h <;> simp
  · intro hnp kv hkv
    simp only [List.mem_cons, List.not_mem_nil, or_false, not_or] at hnp
    obtain ⟨h1, h2, h3, h4⟩ := hnp
    simp only [userInfoObject, List.mem_cons, List.not_mem_nil, or_false] at hkv
    rcases hkv with h | h | h | h | h | h <;> subst h
    · simp
    · exact fun hh => h1 (JsValue.str.inj hh).symm
    · exact fun hh => h2 (JsValue.str.inj hh).symm
    · simp
    · exact fun hh => h3 (JsValue.str.inj hh).symm
    · exact fun hh => h4 (JsValue.str.inj hh).symm

/-- C7 witness: on a concrete user, the securityId entry of the identity is
not the stored hash. -/
theorem C7_witness :
    (("securityId", JsValue.num 7) : String × JsValue).2 ≠ JsValue.str "hash" :=
  (C7_userInfo_omits_password ⟨7, "u", "a@b.com", "hash", "p", "ph"⟩).2.2
    (by decide) ("securityId", JsValue.num 7) (by decide)

/-- Splitting a character list on single spaces, for the collaborator's
`<scheme> <token>` header shape. -/
def splitOnSpace : List Char -> List (List Char)
  | [] => [[]]
  | c :: rest =>
      match splitOnSpace rest with
      | [] => if c = ' ' then [[], []] else [[c]]
      | w :: ws => if c = ' ' then [] :: w :: ws else (c :: w) :: ws

/-- passport-jwt `ExtractJwt.fromAuthHeaderAsBearerToken()` (collaborator,
embedded from its documented behaviour): parses the `Authorization` header as
`<scheme> <token>` and yields the token when the scheme is `bearer`
(case-insensitively); an absent or malformed header yields nothing. -/
def fromAuthHeaderAsBearerToken (r : Request) : Option String :=
  match r.authHeader with
  | none => none
  | some h =>
      match splitOnSpace h.toList with
      | [scheme, token] =>
          if scheme.map Char.toLower = "bearer".toList ∧ token ≠ [] then
            some (String.mk token)
          else none
      | _ => none

/-- passport-jwt `ExtractJwt.fromUrlQueryParameter('access_token')`
(collaborator): a present, non-empty query value. -/
def fromUrlQueryParameter (r : Request) : Option String :=
  match r.queryAccessToken with
  | none => none
  | some t => if t ≠ "" then some t else none

/-- `ExtractJwt.fromExtractors([header, query])`: extractors are tried in
list order, header first, query parameter second; the first extractor that
yields a token wins. -/
def extractToken (r : Request) : Option String :=
  match fromAuthHeaderAsBearerToken r with
  | some t => some t
  | none => fromUrlQueryParameter r

/-- Verification of an already-extracted token string: decode (collaborator
parameter), check signature and expiry against `JWT_SECRET`, then resolve
the claim through `verifyToken`. -/
def verifyTokenString (decode : String → Option Token)
    (m : MyAuthenticationMetadata) (db : List StoredUser) (now : Nat)
    (s : String) : Option UserProfile :=
  match decode s with
  | none => none
  | some tok =>
      match parse JWT_SECRET tok now with
      | ParseResult.valid c =>
          match verifyToken m db c with
          | VerifyOutcome.success u => some u
          | VerifyOutcome.fail => none
      | _ => none

/-- The JWT strategy's `authenticate`: extract a token from the request, then
verify the extracted token. -/
def jwtStrategyAuthenticate (decode : String → Option Token)
    (m : MyAuthenticationMetadata) (db : List StoredUser) (now : Nat)
    (r : Request) : Option UserProfile :=
  match extractToken r with
  | none => none
  | some s => verifyTokenString decode m db now s

/-- C9: when the Authorization header yields a bearer token, that token wins
over any `access_token` query parameter also present, and it is exactly the
token the strategy verifies; when the header yields nothing, extraction
falls back to the query parameter. -/
theorem C9_extraction_order :
    ∀ (decode : String → Option Token) (m : MyAuthenticationMetadata)
      (db : List StoredUser) (now : Nat) (r : Request) (t q : String),
      (fromAuthHeaderAsBearerToken r = some t →
          r.queryAccessToken = some q → q ≠ "" →
          extractToken r = some t
          ∧ jwtStrategyAuthenticate decode m db now r
              = verifyTokenString decode m db now t)
      ∧ (fromAuthHeaderAsBearerToken r = none →
          extractToken r = fromUrlQueryParameter r) := by
  intro decode m db now r t q
  constructor
  · intro hhdr hq hqne
    have hext : extractToken r = some t := by
      unfold extractToken
      rw [hhdr]
    refine ⟨hext, ?_⟩
    unfold jwtStrategyAuthenticate
    rw [hext]
  · intro hhdr
    unfold extractToken
    rw [hhdr]

/-- C9 witness: a request carrying both `Authorization: Bearer abc` and
`access_token=zzz` extracts `abc`, the header token. -/
theorem C9_witness :
    extractToken ⟨some "Bearer abc", some "zzz"⟩ = some "abc"
    ∧ jwtStrategyAuthenticate (fun _ => none) (secured) [] 0
        ⟨some "Bearer abc", some "zzz"⟩
      = verifyTokenString (fun _ => none) (secured) [] 0 "abc" :=
  (C9_extraction_order (fun _ => none) (secured) [] 0
      ⟨some "Bearer abc", some "zzz"⟩ "abc" "zzz").1
    (by decide) rfl (by decide)

/-- The `Product` model (`src/models` part): id, name, optional image, price
and the owning user's id. -/
structure Product where
  id : Nat
  name : String
  image : Option String
  price : Nat
  user_id : Nat
  deriving DecidableEq

/-- Patch body for `PATCH /products/\x7bid\x7d`; the handler writes only `name`
and `price`. -/
structure ProductPatch where
  name : String
  price : Nat
  deriving DecidableEq

/-- `productRepository.findById`. -/
def findProductById (db : List Product) (id : Nat) : Option Product :=
  db.find? (fun p => p.id = id)

/-- `ProductController.updateById`: loads the stored product (entity-not-found
when absent), throws `Unauthorized('Invalid authorization')` when its
`user_id` differs from the caller's resolved subject id, and only then writes
`name` and `price`.  Returns the repository state after the call paired with
the outcome. -/
def updateById (db : List Product) (callerId : Nat) (id : Nat)
    (product : ProductPatch) : List Product × Except HttpError Unit :=
  match findProductById db id with
  | none => (db, Except.error HttpError.notFound)
  | some oldProduct =>
      if oldProduct.user_id ≠ callerId then
        (db, Except.error (HttpError.unauthorized "Invalid authorization"))
      else
        (db.map (fun p =>
            if p.id = id then
              { p with name := product.name, price := product.price }
            else p),
         Except.ok ())

/-- `ProductController.deleteById`: same ownership check, then deletes. -/
def deleteById (db : List Product) (callerId : Nat) (id : Nat) :
    List Product × Except HttpError Unit :=
  match findProductById db id with
  | none => (db, Except.error HttpError.notFound)
  | some oldProduct =>
      if oldProduct.user_id ≠ callerId then
        (db, Except.error (HttpError.unauthorized "Invalid authorization"))
      else
        (db.filter (fun p => p.id ≠ id), Except.ok ())

/-- C10: when the stored product's `user_id` differs from the caller's
subject id, both `PATCH /products/\x7bid\x7d` and `DELETE /products/\x7bid\x7d` throw
`Unauthorized` and leave the product repository exactly as it was. -/
theorem C10_ownership_guard :
    ∀ (db : List Product) (callerId : Nat) (id : Nat) (patch : ProductPatch)
      (p : Product),
      findProductById db id = some p → p.user_id ≠ callerId →
      updateById db callerId id patch
          = (db, Except.error (HttpError.unauthorized "Invalid authorization"))
      ∧ deleteById db callerId id
          = (db, Except.error (HttpError.unauthorized "Invalid authorization")) := by
  intro db callerId id patch p hfind hne
  constructor
  · unfold updateById
    rw [hfind]
    simp [hne]
  · unfold deleteById
    rw [hfind]
    simp [hne]

/-- C10 witness: a caller with subject id 7 cannot patch or delete product 1
owned by user 42; the repository is unchanged. -/
theorem C10_witness :
    updateById [⟨1, "n", none, 5, 42⟩] 7 1 ⟨"m", 9⟩
        = ([⟨1, "n", none, 5, 42⟩],
           Except.error (HttpError.unauthorized "Invalid authorization"))
    ∧ deleteById [⟨1, "n", none, 5, 42⟩] 7 1
        = ([⟨1, "n", none, 5, 42⟩],
           Except.error (HttpError.unauthorized "Invalid authorization")) :=
  C10_ownership_guard [⟨1, "n", none, 5, 42⟩] 7 1 ⟨"m", 9⟩
    ⟨1, "n", none, 5, 42⟩ (by decide) (by decide)
